import Mathlib

/-!
Verification of the RBAC core of the legal-doc-studio repository.

The grant tables, role hierarchy and `hasMinimumRole` come directly from
`src/lib/auth/permissions.ts` and the legal role definitions file.  The
Authorization Evaluator (`authorize`), the Role-Registry validation
(`defineRole`) and the `hasPermission` lookup semantics are implemented by
the external better-auth dependency, so those are modelled from the
specification and marked as such.
-/

namespace LegalRBAC

/-- Resource kinds, from the `statement` object in src/lib/auth/permissions.ts. -/
inductive ResourceKind where
  | organization
  | member
  | invitation
  | matter
  | document
  | billing
deriving DecidableEq, Fintype

/-- Actions appearing in the permission statement of src/lib/auth/permissions.ts. -/
inductive Action where
  | create
  | read
  | update
  | delete
  | assign
  | share
  | approve
  | cancel
deriving DecidableEq, Fintype

/-- The permission statement (catalog): legal actions per resource kind,
from `statement` in src/lib/auth/permissions.ts lines 16-34. -/
def statement : ResourceKind → List Action
  | .organization => [.update, .delete]
  | .member => [.create, .read, .update, .delete]
  | .invitation => [.create, .cancel]
  | .matter => [.create, .read, .update, .delete, .assign]
  | .document => [.create, .read, .update, .delete, .share]
  | .billing => [.read, .create, .approve]

/-- A role: a grant mapping from resource kinds to action lists; a kind may
be omitted entirely (zero actions on it). -/
structure Role where
  grants : List (ResourceKind × List Action)
deriving DecidableEq

/-- Grants of the owner role, src/lib/auth/permissions.ts lines 42-49. -/
def ownerGrants : List (ResourceKind × List Action) :=
  [(.organization, [.update, .delete]),
   (.member, [.create, .read, .update, .delete]),
   (.invitation, [.create, .cancel]),
   (.matter, [.create, .read, .update, .delete, .assign]),
   (.document, [.create, .read, .update, .delete, .share]),
   (.billing, [.read, .create, .approve])]

/-- Grants of the partner role, src/lib/auth/permissions.ts lines 55-61. -/
def partnerGrants : List (ResourceKind × List Action) :=
  [(.member, [.create, .read, .update, .delete]),
   (.invitation, [.create, .cancel]),
   (.matter, [.create, .read, .update, .delete, .assign]),
   (.document, [.create, .read, .update, .delete, .share]),
   (.billing, [.read, .create, .approve])]

/-- Grants of the associate role, src/lib/auth/permissions.ts lines 67-72. -/
def associateGrants : List (ResourceKind × List Action) :=
  [(.member, [.read]),
   (.matter, [.read, .update]),
   (.document, [.create, .read, .update, .delete]),
   (.billing, [.read])]

/-- Grants of the paralegal role, src/lib/auth/permissions.ts lines 78-83. -/
def paralegalGrants : List (ResourceKind × List Action) :=
  [(.member, [.read]),
   (.matter, [.read]),
   (.document, [.create, .read, .update]),
   (.billing, [.read])]

/-- Grants of the staff role, src/lib/auth/permissions.ts lines 89-94. -/
def staffGrants : List (ResourceKind × List Action) :=
  [(.member, [.read]),
   (.matter, [.read]),
   (.document, [.read]),
   (.billing, [.read, .create])]

/-- Grants of the client role, src/lib/auth/permissions.ts lines 100-103. -/
def clientGrants : List (ResourceKind × List Action) :=
  [(.matter, [.read]),
   (.document, [.read])]

/-- The six declared role names, keys of the exported `roles` record. -/
inductive RoleName where
  | owner
  | partner
  | associate
  | paralegal
  | staff
  | client
deriving DecidableEq, Fintype

/-- The exported `roles` record, src/lib/auth/permissions.ts lines 108-115. -/
def roles : RoleName → Role
  | .owner => ⟨ownerGrants⟩
  | .partner => ⟨partnerGrants⟩
  | .associate => ⟨associateGrants⟩
  | .paralegal => ⟨paralegalGrants⟩
  | .staff => ⟨staffGrants⟩
  | .client => ⟨clientGrants⟩

/-- Look up the action list granted for a resource kind in a grant mapping. -/
def lookupGrant (grants : List (ResourceKind × List Action)) (rk : ResourceKind) :
    Option (List Action) :=
  match grants with
  | [] => none
  | (k, acts) :: rest => if k = rk then some acts else lookupGrant rest rk

/-- Modelled from the spec: `hasPermission(role, resourceKind, action)` of the
Role Registry (§4.2); the lookup itself is implemented inside the external
better-auth library.  True iff the action is present in
`role.grants[resourceKind]`; an absent resource-kind key means false.  The
grant data it consumes is taken verbatim from src/lib/auth/permissions.ts. -/
def hasPermission (role : Role) (rk : ResourceKind) (a : Action) : Bool :=
  match lookupGrant role.grants rk with
  | some acts => acts.contains a
  | none => false

/-- Registry construction faults, from spec §4.2 and §7. -/
inductive RegError where
  | UnknownResourceKind
  | InvalidAction
  | DuplicateRoleName
deriving DecidableEq

/-- A grant mapping is valid when every granted action is declared legal for
its resource kind in the permission statement. -/
def validGrants (grants : List (ResourceKind × List Action)) : Bool :=
  grants.all (fun g => g.2.all (fun a => (statement g.1).contains a))

/-- Modelled from the spec: `defineRole` of the Role Registry (§4.2); the
validation is performed inside the external better-auth
`createAccessControl`/`newRole` machinery.  Fails with `InvalidAction` at
construction time if a grant includes an action not declared legal for that
resource kind. -/
def defineRole (grants : List (ResourceKind × List Action)) : Except RegError Role :=
  if validGrants grants then .ok ⟨grants⟩ else .error .InvalidAction

/-- The role hierarchy from the legal role definitions file
(`RoleHierarchy`), least to most privileged; higher index means more
permissions. -/
def RoleHierarchy : List String :=
  ["client", "staff", "paralegal", "associate", "partner", "owner"]

/-- Zero-based position of the first occurrence of a string in a list, if
any; the building block for the JavaScript `Array.prototype.indexOf` used by
`hasMinimumRole`. -/
def idxOf? (xs : List String) (s : String) : Option Nat :=
  match xs with
  | [] => none
  | x :: rest => if x = s then some 0 else (idxOf? rest s).map (· + 1)

/-- JavaScript `Array.prototype.indexOf`: index of the first occurrence, or
-1 when the element is absent. -/
def jsIndexOf (xs : List String) (s : String) : Int :=
  match idxOf? xs s with
  | some n => (n : Int)
  | none => -1

/-- `hasMinimumRole(userRole, requiredRole)` from the legal role definitions
file: compares `RoleHierarchy.indexOf` of the two role names. -/
def hasMinimumRole (userRole requiredRole : String) : Bool :=
  jsIndexOf RoleHierarchy userRole ≥ jsIndexOf RoleHierarchy requiredRole

/-- The string name of each declared role, as it appears in `LegalRoles`
and in the keys of the exported `roles` record. -/
def roleName : RoleName → String
  | .owner => "owner"
  | .partner => "partner"
  | .associate => "associate"
  | .paralegal => "paralegal"
  | .staff => "staff"
  | .client => "client"

/-- `rank(role)` of spec §4.3: the index of the role in the fixed total
order, realized by the source's `RoleHierarchy.indexOf`. -/
def rank (r : RoleName) : Int :=
  jsIndexOf RoleHierarchy (roleName r)

/-- `atLeast(roleA, roleB)` of spec §4.3, realized by the source's
`hasMinimumRole` applied to the role names. -/
def atLeast (a b : RoleName) : Bool :=
  hasMinimumRole (roleName a) (roleName b)

/-- A principal record `{id, roleName, tenantId}` as consumed from the
external identity system (spec §6). -/
structure Principal where
  id : String
  roleName : String
  tenantId : String
deriving DecidableEq

/-- Modelled from the spec: reason codes of the `Decision` result (§4.4,
§7); the evaluator itself is not part of this repository's source. -/
inductive ReasonCode where
  | Granted
  | InsufficientRolePermission
  | OutOfScope
deriving DecidableEq

/-- Modelled from the spec: the structured allow/deny result of one
authorization check (§4.4). -/
structure Decision where
  allow : Bool
  reason : ReasonCode
deriving DecidableEq

/-- Modelled from the spec: hard errors of the Authorization Evaluator
(§4.4, §7), distinguished from deny decisions. -/
inductive AuthError where
  | UnknownRole
  | MissingScopePredicate
deriving DecidableEq

/-- Modelled from the spec: the scope-restricted resource kinds, configured
out-of-band as matter and document in the reference policy (§4.4 step 3). -/
def scopeRestricted : ResourceKind → Bool
  | .matter => true
  | .document => true
  | _ => false

/-- `getRole(name)` over the reference policy: resolves each declared role
name to its role from src/lib/auth/permissions.ts, and fails (none) for any
other name. -/
def getRole : String → Option Role
  | "owner" => some (roles .owner)
  | "partner" => some (roles .partner)
  | "associate" => some (roles .associate)
  | "paralegal" => some (roles .paralegal)
  | "staff" => some (roles .staff)
  | "client" => some (roles .client)
  | _ => none

/-- Modelled from the spec: the Authorization Evaluator `authorize` (§4.4);
the evaluation logic lives in the external better-auth dependency, so the
five-step algorithm of §4.4 is followed literally.  Step 1 resolves the
role (hard error `UnknownRole` on failure); step 2 denies with
`InsufficientRolePermission` when the grant lacks the action; step 3, for a
scope-restricted kind with a target, requires a scope predicate (hard error
`MissingScopePredicate` when none is supplied) and denies with `OutOfScope`
when it is false; step 4 lets the permission-only result stand when no
target is supplied; step 5 allows with `Granted`. -/
def authorize {T : Type} (registry : String → Option Role) (p : Principal)
    (rk : ResourceKind) (a : Action) (target : Option T)
    (sp : Option (Principal → T → Bool)) : Except AuthError Decision :=
  match registry p.roleName with
  | none => .error .UnknownRole
  | some role =>
    if hasPermission role rk a = false then
      .ok ⟨false, .InsufficientRolePermission⟩
    else if scopeRestricted rk then
      match target with
      | some t =>
        match sp with
        | none => .error .MissingScopePredicate
        | some q =>
          if q p t = false then .ok ⟨false, .OutOfScope⟩
          else .ok ⟨true, .Granted⟩
      | none => .ok ⟨true, .Granted⟩
    else .ok ⟨true, .Granted⟩

/-- The reference policy table of spec §4.2, transcribed from the spec's
words (six roles by six resource kinds; a dash means no actions).  This
definition intentionally follows the SPEC table, to be compared with the
source-derived `roles`/`hasPermission`. -/
def specTable : RoleName → ResourceKind → List Action
  | .owner, .organization => [.update, .delete]
  | .owner, .member => [.create, .read, .update, .delete]
  | .owner, .invitation => [.create, .cancel]
  | .owner, .matter => [.create, .read, .update, .delete, .assign]
  | .owner, .document => [.create, .read, .update, .delete, .share]
  | .owner, .billing => [.read, .create, .approve]
  | .partner, .organization => []
  | .partner, .member => [.create, .read, .update, .delete]
  | .partner, .invitation => [.create, .cancel]
  | .partner, .matter => [.create, .read, .update, .delete, .assign]
  | .partner, .document => [.create, .read, .update, .delete, .share]
  | .partner, .billing => [.read, .create, .approve]
  | .associate, .organization => []
  | .associate, .member => [.read]
  | .associate, .invitation => []
  | .associate, .matter => [.read, .update]
  | .associate, .document => [.create, .read, .update, .delete]
  | .associate, .billing => [.read]
  | .paralegal, .organization => []
  | .paralegal, .member => [.read]
  | .paralegal, .invitation => []
  | .paralegal, .matter => [.read]
  | .paralegal, .document => [.create, .read, .update]
  | .paralegal, .billing => [.read]
  | .staff, .organization => []
  | .staff, .member => [.read]
  | .staff, .invitation => []
  | .staff, .matter => [.read]
  | .staff, .document => [.read]
  | .staff, .billing => [.read, .create]
  | .client, .organization => []
  | .client, .member => []
  | .client, .invitation => []
  | .client, .matter => [.read]
  | .client, .document => [.read]
  | .client, .billing => []

/-- Helper: `idxOf?` yields none exactly on absent elements. -/
theorem idxOf?_eq_none (xs : List String) (s : String) (h : s ∉ xs) :
    idxOf? xs s = none := by
  induction xs with
  | nil => rfl
  | cons x rest ih =>
    have hx : ¬ x = s := fun he => h (he ▸ List.mem_cons_self x rest)
    have hs : s ∉ rest := fun hm => h (List.mem_cons_of_mem x hm)
    simp [idxOf?, hx, ih hs]

/-- Helper: `idxOf?` yields some index on present elements. -/
theorem idxOf?_mem (xs : List String) (s : String) (h : s ∈ xs) :
    ∃ n, idxOf? xs s = some n := by
  induction xs with
  | nil => cases h
  | cons x rest ih =>
    by_cases hx : x = s
    · exact ⟨0, by simp [idxOf?, hx]⟩
    · have hs : s ∈ rest := by
        cases List.mem_cons.mp h with
        | inl he => exact absurd he.symm hx
        | inr hm => exact hm
      obtain ⟨n, hn⟩ := ih hs
      exact ⟨n + 1, by simp [idxOf?, hx, hn]⟩

/-- Claim C1: for every declared role, resource kind and action,
`hasPermission` over the source grant tables agrees exactly with the
reference policy table of spec §4.2. -/
theorem hasPermission_matches_specTable :
    ∀ (r : RoleName) (rk : ResourceKind) (a : Action),
      hasPermission (roles r) rk a = (specTable r rk).contains a := by
  decide

/-- Claim C2: whenever the principal's role resolves and lacks the requested
action on the requested resource kind, `authorize` returns the structured
deny `{allow: false, reason: InsufficientRolePermission}`; in particular the
client role denied delete on document. -/
theorem authorize_insufficient_permission {T : Type}
    (reg : String → Option Role) (p : Principal) (role : Role)
    (rk : ResourceKind) (a : Action) (target : Option T)
    (sp : Option (Principal → T → Bool))
    (hrole : reg p.roleName = some role)
    (hperm : hasPermission role rk a = false) :
    authorize reg p rk a target sp = .ok ⟨false, .InsufficientRolePermission⟩ ∧
    authorize getRole ⟨("u1"), ("client"), ("t1")⟩ .document .delete
      (none : Option Unit) none = .ok ⟨false, .InsufficientRolePermission⟩ := by
  constructor
  · unfold authorize
    rw [hrole]
    simp [hperm]
  · rfl

/-- Witness for C2 at a concrete call: client requesting delete on a
document with a target and predicate supplied. -/
theorem authorize_insufficient_permission_witness :
    authorize getRole ⟨("u2"), ("client"), ("t1")⟩ .document .delete
      (some ()) (some fun _ _ => true) = .ok ⟨false, .InsufficientRolePermission⟩ :=
  (authorize_insufficient_permission getRole ⟨("u2"), ("client"), ("t1")⟩
    (roles .client) .document .delete (some ()) (some fun _ _ => true)
    rfl (by decide)).1

/-- Claim C3: on a scope-restricted kind with target and predicate supplied,
`authorize` allows exactly when the grant holds and the predicate is true;
a false predicate yields `OutOfScope` even with the grant present; with no
target the grant-only result of step 2 stands. -/
theorem authorize_scope_restricted {T : Type}
    (reg : String → Option Role) (p : Principal) (role : Role)
    (rk : ResourceKind) (a : Action) (t : T) (q : Principal → T → Bool)
    (hrole : reg p.roleName = some role)
    (hrk : scopeRestricted rk = true) :
    (authorize reg p rk a (some t) (some q) = .ok ⟨true, .Granted⟩ ↔
      hasPermission role rk a = true ∧ q p t = true) ∧
    (hasPermission role rk a = true → q p t = false →
      authorize reg p rk a (some t) (some q) = .ok ⟨false, .OutOfScope⟩) ∧
    (∀ sp : Option (Principal → T → Bool),
      authorize reg p rk a none sp =
        if hasPermission role rk a then .ok ⟨true, .Granted⟩
        else .ok ⟨false, .InsufficientRolePermission⟩) := by
  refine ⟨?_, ?_, ?_⟩
  · unfold authorize
    rw [hrole]
    cases hp : hasPermission role rk a <;> cases hq : q p t <;>
      simp [hrk, hp, hq]
  · intro hp hq
    unfold authorize
    rw [hrole]
    simp [hrk, hp, hq]
  · intro sp
    unfold authorize
    rw [hrole]
    cases hp : hasPermission role rk a <;> simp [hrk, hp]

/-- Witness for C3 at a concrete call: associate reading a matter whose
scope predicate rejects the target. -/
theorem authorize_scope_restricted_witness :
    authorize getRole ⟨("u3"), ("associate"), ("t1")⟩ .matter .read
      (some (0 : Nat)) (some fun _ _ => false) = .ok ⟨false, .OutOfScope⟩ :=
  (authorize_scope_restricted getRole ⟨("u3"), ("associate"), ("t1")⟩
    (roles .associate) .matter .read 0 (fun _ _ => false) rfl rfl).2.1
    (by decide) rfl

/-- Counterexample to claim C4 as stated: a call on a scope-restricted kind
with a target and no scope predicate where the role lacks the grant returns
the deny decision of step 2 and does not fail with `MissingScopePredicate`. -/
theorem authorize_missing_predicate_counterexample :
    authorize getRole ⟨("u4"), ("client"), ("t1")⟩ .matter .delete
      (some (0 : Nat)) none = .ok ⟨false, .InsufficientRolePermission⟩ ∧
    ¬ (authorize getRole ⟨("u4"), ("client"), ("t1")⟩ .matter .delete
        (some (0 : Nat)) none = .error .MissingScopePredicate) :=
  ⟨rfl, fun h => Except.noConfusion h⟩

/-- Claim C4 (amended): on a scope-restricted kind whose grant contains the
requested action, a call with a target supplied but no scope predicate fails
with the hard error `MissingScopePredicate`, never a deny decision. -/
theorem authorize_missing_predicate {T : Type}
    (reg : String → Option Role) (p : Principal) (role : Role)
    (rk : ResourceKind) (a : Action) (t : T)
    (hrole : reg p.roleName = some role)
    (hrk : scopeRestricted rk = true)
    (hperm : hasPermission role rk a = true) :
    authorize reg p rk a (some t) (none : Option (Principal → T → Bool))
      = .error .MissingScopePredicate := by
  unfold authorize
  rw [hrole]
  simp [hrk, hperm]

/-- Witness for C4 (amended) at a concrete call: staff reading a matter
with a target and no predicate. -/
theorem authorize_missing_predicate_witness :
    authorize getRole ⟨("u5"), ("staff"), ("t1")⟩ .matter .read
      (some (0 : Nat)) none = .error .MissingScopePredicate :=
  authorize_missing_predicate getRole ⟨("u5"), ("staff"), ("t1")⟩
    (roles .staff) .matter .read 0 rfl rfl (by decide)

/-- Claim C5: the hierarchy is the fixed order client, staff, paralegal,
associate, partner, owner; `rank` is the index in that order; `atLeast`
(the source's `hasMinimumRole`) is true exactly when ranks compare ≥; and
the two quoted instances hold. -/
theorem rank_atLeast_hierarchy :
    RoleHierarchy = [("client"), ("staff"), ("paralegal"), ("associate"),
      ("partner"), ("owner")] ∧
    rank .client = 0 ∧ rank .staff = 1 ∧ rank .paralegal = 2 ∧
    rank .associate = 3 ∧ rank .partner = 4 ∧ rank .owner = 5 ∧
    (∀ a b : RoleName, atLeast a b = decide (rank a ≥ rank b)) ∧
    atLeast .owner .client = true ∧ atLeast .client .owner = false := by
  decide

/-- Claim C6: the hierarchy order disagrees with grant inclusion: paralegal
ranks strictly above staff, yet staff has the billing create grant and
paralegal lacks it; `hasPermission` and `atLeast` both report this tension
unchanged. -/
theorem hierarchy_grant_disagreement :
    rank .staff < rank .paralegal ∧
    atLeast .paralegal .staff = true ∧
    hasMinimumRole ("paralegal") ("staff") = true ∧
    hasPermission (roles .staff) .billing .create = true ∧
    hasPermission (roles .paralegal) .billing .create = false := by
  decide

/-- Claim C7: a grant mapping containing an action not declared for its
resource kind always fails at construction time with `InvalidAction`; and
every role of the reference policy validates, so only declared pairs are
ever granted. -/
theorem defineRole_invalid_action (grants : List (ResourceKind × List Action))
    (h : validGrants grants = false) :
    defineRole grants = .error .InvalidAction ∧
    (∀ r : RoleName, validGrants (roles r).grants = true ∧
      defineRole (roles r).grants = .ok (roles r)) := by
  refine ⟨by simp [defineRole, h], ?_⟩
  intro r
  cases r <;> exact ⟨rfl, rfl⟩

/-- Witness for C7 at a concrete invalid grant: create is not declared for
the organization resource kind. -/
theorem defineRole_invalid_action_witness :
    validGrants [(.organization, [.create])] = false ∧
    defineRole [(.organization, [.create])] = .error .InvalidAction :=
  ⟨by decide, (defineRole_invalid_action [(.organization, [.create])]
    (by decide)).1⟩

/-- Claim C8: `authorize` is a pure function of its inputs: two calls with
identical principal, resource kind, action, target and scope predicate
yield identical decisions; the registry and catalog are immutable values in
this model, so no call can mutate them. -/
theorem authorize_deterministic {T : Type}
    (reg : String → Option Role) (p p' : Principal)
    (rk rk' : ResourceKind) (a a' : Action) (t t' : Option T)
    (sp sp' : Option (Principal → T → Bool))
    (hp : p = p') (hrk : rk = rk') (ha : a = a') (ht : t = t')
    (hsp : sp = sp') :
    authorize reg p rk a t sp = authorize reg p' rk' a' t' sp' := by
  rw [hp, hrk, ha, ht, hsp]

/-- Witness for C8 at a concrete repeated call. -/
theorem authorize_deterministic_witness :
    authorize getRole ⟨("u6"), ("owner"), ("t1")⟩ .billing .approve
      (none : Option Nat) none
      = authorize getRole ⟨("u6"), ("owner"), ("t1")⟩ .billing .approve
        (none : Option Nat) none :=
  authorize_deterministic getRole _ _ _ _ _ _ (none : Option Nat) _ _ _
    rfl rfl rfl rfl rfl

/-- Claim C9: for a required role name absent from `RoleHierarchy` and a
user role present in it, `hasMinimumRole` returns true (every known index
is ≥ -1); conversely with the roles swapped it returns false. -/
theorem hasMinimumRole_unknown_required (u x : String)
    (hu : u ∈ RoleHierarchy) (hx : x ∉ RoleHierarchy) :
    hasMinimumRole u x = true ∧ hasMinimumRole x u = false := by
  obtain ⟨n, hn⟩ := idxOf?_mem RoleHierarchy u hu
  have hxn := idxOf?_eq_none RoleHierarchy x hx
  unfold hasMinimumRole jsIndexOf
  rw [hn, hxn]
  constructor
  · simp only [decide_eq_true_eq]
    omega
  · simp only [decide_eq_false_iff_not]
    omega

/-- Witness for C9 at concrete names: the name admin does not occur in the
hierarchy, owner does. -/
theorem hasMinimumRole_unknown_required_witness :
    hasMinimumRole ("owner") ("admin") = true ∧
    hasMinimumRole ("admin") ("owner") = false :=
  hasMinimumRole_unknown_required ("owner") ("admin") (by decide) (by decide)

/-- Claim C10: the owner role's grants are a pointwise superset of every
role's grants in the exported roles record. -/
theorem owner_grants_superset (r : RoleName) (rk : ResourceKind) (a : Action)
    (h : hasPermission (roles r) rk a = true) :
    hasPermission (roles .owner) rk a = true := by
  revert h
  revert r rk a
  decide

/-- Witness for C10 at a concrete grant held by a non-owner role. -/
theorem owner_grants_superset_witness :
    hasPermission (roles .staff) .billing .create = true ∧
    hasPermission (roles .owner) .billing .create = true :=
  ⟨by decide, owner_grants_superset .staff .billing .create (by decide)⟩

end LegalRBAC
